import Mathlib

/-!
Shallow embedding of the FHT 80b codec of fhz2mqtt (src/fht.c, with the
hauscode helpers of the header).  C `unsigned char` bytes are modelled as
`Nat` (with `% 256` where a cast truncates), C `int` return codes as `Int`,
C `float`/`double` arithmetic as exact `ℚ` arithmetic (every operation the
code performs on the relevant inputs is exact in the C types, and the
printf roundings land far from any tie, so the rational model agrees with
the float model on every value these definitions are applied to), and the
`printf`-style formatting as explicit decimal-string builders.
-/

/-- Linux errno values used by src/fht.c. -/
def EPERM : Int := 1
def EAGAIN : Int := 11
def EINVAL : Int := 22
def ERANGE : Int := 34

/-- One report slot of `struct fht_message`: a (topic, value) text pair
(the struct itself lives in the header fhz.h, described in the spec as a
pair of bounded text fields; truncation never triggers at the sizes the
code produces, so plain strings model it). -/
structure Report where
  topic : String := ""
  value : String := ""
deriving DecidableEq, Repr

/-- Frame kind, `enum` field `type` of `struct fht_message`. -/
inductive FhtType where
  | ACK
  | STATUS
deriving DecidableEq, Repr

/-- The decoded-message sink filled by the output conversions.  src/fht.c
uses exactly the slots `report[0]` and `report[1]`.  `memset(message, 0, ...)`
corresponds to the default value `{}`. -/
structure FhtMessage where
  msg_type : FhtType := .ACK
  hauscode : Nat × Nat := (0, 0)
  report0 : Report := {}
  report1 : Report := {}
deriving DecidableEq, Repr

/-- `struct fht_message_raw`: the four bytes handed to every conversion. -/
structure FhtMessageRaw where
  cmd : Nat
  subfun : Nat
  status : Nat
  value : Nat
deriving DecidableEq, Repr

/-- `struct payload` (declared in the header fhz.h): a declared length and
the raw data bytes. -/
structure Payload where
  tt : Nat := 0
  len : Nat
  data : List Nat
deriving DecidableEq, Repr

/-- Formatting model of `printf("%0.1f", q)` for the non-negative rationals
the code produces: round to the nearest tenth and print one fractional
digit.  (None of the values fht.c formats lies on a rounding tie, so the
half-up tie rule here is indistinguishable from the C library's.) -/
def fmtFixed1 (q : ℚ) : String :=
  let n := (⌊q * 10 + 1/2⌋).toNat
  toString (n / 10) ++ "." ++ toString (n % 10)

/-- Formatting model of `printf("%0.2f", q)` for non-negative rationals:
round to the nearest hundredth and print two fractional digits. -/
def fmtFixed2 (q : ℚ) : String :=
  let n := (⌊q * 100 + 1/2⌋).toNat
  toString (n / 100) ++ "." ++ (if n % 100 < 10 then "0" else "") ++ toString (n % 100)

/-- Formatting model of `printf("%u", i)` where a C `int` value is passed
for an `unsigned int` conversion: the argument is reinterpreted modulo
2^32 (two's-complement), then printed in decimal. -/
def sprintf_u (i : Int) : String :=
  toString ((i % (2 ^ 32)).toNat)

/-- ASCII case-insensitive string equality, the model of
`strcasecmp(a,b) == 0`: compare the two character sequences after
lowering each character. -/
def strcaseeq (a b : String) : Bool :=
  a.data.map Char.toLower == b.data.map Char.toLower

/-- Value of a list of decimal digit characters. -/
def digitsToNat (l : List Char) : Nat :=
  l.foldl (fun a c => a * 10 + (c.toNat - 48)) 0

/-- Model of `sscanf(payload, "%f", &x) == 1` for the plain decimal
numerals the spec's payloads take: an optional minus sign, a digit run,
and an optional fractional digit run.  (The C library also tolerates
leading whitespace, exponents and trailing junk; no claim depends on
those shapes.) -/
def parseDec (s : String) : Option ℚ :=
  let (neg, body) :=
    match s.data with
    | '-' :: rest => (true, rest)
    | l => (false, l)
  let intPart := body.takeWhile (fun c => c.isDigit)
  let rest := body.dropWhile (fun c => c.isDigit)
  let val? : Option ℚ :=
    match rest with
    | [] => if intPart = [] then none else some ((digitsToNat intPart : ℚ))
    | '.' :: frac =>
        if intPart = [] then none
        else if frac = [] then none
        else if frac.all (fun c => c.isDigit) then
          some ((digitsToNat intPart : ℚ) + (digitsToNat frac : ℚ) / 10 ^ frac.length)
        else none
    | _ => none
  val?.map fun v => if neg then -v else v

/-- Model of `sscanf(payload, "%u", &x) == 1` for plain decimal numerals. -/
def parseUInt (s : String) : Option Nat :=
  if s.data ≠ [] ∧ s.data.all (fun c => c.isDigit) then some (digitsToNat s.data)
  else none

/-- The classification `payload_to_fht_temp` performs on its payload
string before any arithmetic: the case-insensitive literals "off" / "on",
a string `sscanf("%f")` accepts (carrying the parsed number), or anything
else. -/
inductive TempInput where
  | off
  | on
  | num (q : ℚ)
  | invalid
deriving DecidableEq

/-- Classify a payload string the way the branch structure of
`payload_to_fht_temp` does. -/
def classifyTempInput (s : String) : TempInput :=
  if strcaseeq s "off" then .off
  else if strcaseeq s "on" then .on
  else
    match parseDec s with
    | some q => .num q
    | none => .invalid

/-- The conversion `(unsigned char)(temp/0.5)` at the end of
`payload_to_fht_temp`: the division is exact, the cast truncates toward
zero (every reachable `temp` is positive, so truncation is `⌊·⌋`) and
wraps into a byte. -/
def fht_temp_encode (temp : ℚ) : Int :=
  ⌊temp / (0.5 : ℚ)⌋ % 256

/-- `payload_to_fht_temp` (src/fht.c:97): accept "off"/"on" literals or a
parsed number; range-check numbers against [FHT_TEMP_OFF, FHT_TEMP_ON] =
[5.5, 30.5]; encode as `(unsigned char)(temp/0.5)`. -/
def payload_to_fht_temp : TempInput → Int
  | .off => fht_temp_encode (5.5 : ℚ)
  | .on => fht_temp_encode (30.5 : ℚ)
  | .invalid => -EINVAL
  | .num temp =>
      if temp < (5.5 : ℚ) ∨ temp > (30.5 : ℚ) then -ERANGE
      else fht_temp_encode temp

/-- The semantic temperature a decoded byte denotes: `value * 0.5`
(the quantity `fht_temp_to_str` formats). -/
def fht_temp_decode_val (v : Nat) : ℚ :=
  (v : ℚ) * (0.5 : ℚ)

/-- `fht_temp_to_str` (src/fht.c:117): report `value * 0.5` with one
fractional digit. -/
def fht_temp_to_str (message : FhtMessage) (raw : FhtMessageRaw) : Int × FhtMessage :=
  (0, { message with report0 := { message.report0 with
          value := fmtFixed1 (fht_temp_decode_val raw.value) } })

def s_mode_auto : String := "auto"
def s_mode_holiday : String := "holiday"
def s_mode_manual : String := "manual"

/-- `payload_to_mode` (src/fht.c:124), faithful to the source: the second
and the third branch both compare against `s_mode_manual` (the third, the
one returning FHT_MODE_HOLI = 2, is therefore dead). -/
def payload_to_mode (payload : String) : Int :=
  if strcaseeq payload s_mode_auto then 0
  else if strcaseeq payload s_mode_manual then 1
  else if strcaseeq payload s_mode_manual then 2
  else -EINVAL

/-- `mode_to_str` (src/fht.c:136): map the value byte to a mode name; on
an unknown value still write "unknown" into the report, then return the
error. -/
def mode_to_str (message : FhtMessage) (raw : FhtMessageRaw) : Int × FhtMessage :=
  let (src, err) : String × Int :=
    if raw.value = 0 then (s_mode_auto, 0)
    else if raw.value = 1 then (s_mode_manual, 0)
    else if raw.value = 2 then (s_mode_holiday, 0)
    else ("unknown", -EINVAL)
  (err, { message with report0 := { message.report0 with value := src } })

/-- `input_not_accepted` (src/fht.c:163). -/
def input_not_accepted (_payload : String) : Int :=
  -EPERM

/-- `fht_is_temp_low` (src/fht.c:168): latch the low byte into the global
`temp_low` slot and signal -EAGAIN; no report is written. -/
def fht_is_temp_low (message : FhtMessage) (raw : FhtMessageRaw) :
    Nat × Int × FhtMessage :=
  (raw.value, -EAGAIN, message)

/-- `fht_is_temp_high_to_str` (src/fht.c:175): combine the latched low
byte with the current value byte as `(temp_low + value*256)/10`, two
fractional digits. -/
def fht_is_temp_high_to_str (temp_low : Nat) (message : FhtMessage)
    (raw : FhtMessageRaw) : Int × FhtMessage :=
  (0, { message with report0 := { message.report0 with
          value := fmtFixed2 (((temp_low : ℚ) + (raw.value : ℚ) * 256) / 10) } })

/-- `payload_to_fht_year` (src/fht.c:183). -/
def payload_to_fht_year (payload : String) : Int :=
  match parseUInt payload with
  | none => -EINVAL
  | some year => (year : Int) - 2000

/-- `fht_year_to_str` (src/fht.c:193). -/
def fht_year_to_str (message : FhtMessage) (raw : FhtMessageRaw) : Int × FhtMessage :=
  (0, { message with report0 := { message.report0 with
          value := toString (2000 + raw.value) } })

/-- `payload_to_fht_month` (src/fht.c:200). -/
def payload_to_fht_month (payload : String) : Int :=
  match parseUInt payload with
  | none => -EINVAL
  | some month => if month > 12 then -EINVAL else month

/-- `fht_month_to_str` (src/fht.c:213). -/
def fht_month_to_str (message : FhtMessage) (raw : FhtMessageRaw) : Int × FhtMessage :=
  if raw.value > 12 then (-EINVAL, message)
  else (0, { message with report0 := { message.report0 with value := toString raw.value } })

/-- `payload_to_fht_day` (src/fht.c:223). -/
def payload_to_fht_day (payload : String) : Int :=
  match parseUInt payload with
  | none => -EINVAL
  | some day => if day > 31 then -EINVAL else day

/-- `fht_day_to_str` (src/fht.c:236). -/
def fht_day_to_str (message : FhtMessage) (raw : FhtMessageRaw) : Int × FhtMessage :=
  if raw.value > 31 then (-EINVAL, message)
  else (0, { message with report0 := { message.report0 with value := toString raw.value } })

/-- `payload_to_fht_hour` (src/fht.c:246). -/
def payload_to_fht_hour (payload : String) : Int :=
  match parseUInt payload with
  | none => -EINVAL
  | some hour => if hour > 24 then -EINVAL else hour

/-- `fht_hour_to_str` (src/fht.c:259). -/
def fht_hour_to_str (message : FhtMessage) (raw : FhtMessageRaw) : Int × FhtMessage :=
  if raw.value > 24 then (-EINVAL, message)
  else (0, { message with report0 := { message.report0 with value := toString raw.value } })

/-- `payload_to_fht_minute` (src/fht.c:269). -/
def payload_to_fht_minute (payload : String) : Int :=
  match parseUInt payload with
  | none => -EINVAL
  | some minute => if minute > 59 then -EINVAL else minute

/-- `fht_minute_to_str` (src/fht.c:282). -/
def fht_minute_to_str (message : FhtMessage) (raw : FhtMessageRaw) : Int × FhtMessage :=
  if raw.value > 59 then (-EINVAL, message)
  else (0, { message with report0 := { message.report0 with value := toString raw.value } })

/-- The percentage a valve byte denotes, `(float)valve * 100 / 255`
(exact in ℚ; the float computation is exact up to the division, whose
rounding error is far below the distance of `valve*100/255` to any
tenth-rounding tie). -/
def fht_pct (valve : Nat) : ℚ :=
  (valve : ℚ) * 100 / 255

/-- `fht_percentage_to_str` (src/fht.c:292): dispatch on the low nibble
`r` of the status byte; the high nibble `l` matters only in the
lime-protection case `r = 0xA`.  The C `switch` has no `default`, so any
unlisted low nibble falls through to the percentage report. -/
def fht_percentage_to_str (message : FhtMessage) (raw : FhtMessageRaw) :
    Int × FhtMessage :=
  let l := raw.status / 16 % 16
  let r := raw.status % 16
  if r = 0x8 then
    (0, { message with report0 :=
            { topic := "valve/" ++ toString raw.cmd ++ "/offset",
              value := (if raw.value &&& 0x80 ≠ 0 then "-" else "")
                         ++ toString (raw.value &&& 0x7f) } })
  else if r = 0xa ∧ ¬(l = 0xa ∨ l = 0xb) then
    (-EINVAL, message)
  else if r = 0xc then
    (0, { message with report0 :=
            { topic := "synctime",
              value := sprintf_u (((raw.value : Int) / 2) - 1) } })
  else if r = 0xe then
    (-EINVAL, message)
  else
    let valve : Nat := if r = 0x1 then 0xff else if r = 0x2 then 0 else raw.value
    let message :=
      if r = 0xf then
        { message with report1 :=
            { topic := "valve/" ++ toString raw.cmd, value := "paired" } }
      else message
    (0, { message with report0 := { message.report0 with
            value := fmtFixed1 (fht_pct valve) } })

/-- `fht_status_to_str` (src/fht.c:350): window from bit 5 and battery
from bit 0 — both read from the VALUE byte `raw->value`. -/
def fht_status_to_str (message : FhtMessage) (raw : FhtMessageRaw) :
    Int × FhtMessage :=
  let m1 := { message with report0 :=
      { topic := "window",
        value := if raw.value &&& (1 <<< 5) ≠ 0 then "open" else "close" } }
  let m2 := { m1 with report1 :=
      { topic := "battery",
        value := if raw.value &&& (1 <<< 0) ≠ 0 then "empty" else "ok" } }
  (0, m2)

/-- `fht_ignore` (src/fht.c:363): log to stdout (not modelled), report
nothing, succeed. -/
def fht_ignore (message : FhtMessage) (_raw : FhtMessageRaw) : Int × FhtMessage :=
  (0, message)

/-- `struct fht_command` (src/fht.c:78).  The output conversion threads
the `temp_low` latch (the one piece of global state) explicitly. -/
structure FhtCommand where
  function_id : Nat
  name : Option String := none
  input_conversion : String → Int
  output_conversion : Nat → FhtMessage → FhtMessageRaw → Nat × Int × FhtMessage

/-- Lift a latch-independent output conversion to the threaded shape. -/
def pureConv (f : FhtMessage → FhtMessageRaw → Int × FhtMessage) :
    Nat → FhtMessage → FhtMessageRaw → Nat × Int × FhtMessage :=
  fun temp_low message raw => (temp_low, f message raw)

/-- String-payload form of `payload_to_fht_temp`, as stored in the table. -/
def payload_to_fht_temp_of_str (s : String) : Int :=
  payload_to_fht_temp (classifyTempInput s)

/-- The command table `fht_commands` (src/fht.c:386), entry for entry. -/
def fht_commands : List FhtCommand :=
  [ { function_id := 0x00, name := some "is-valve",
      input_conversion := input_not_accepted,
      output_conversion := pureConv fht_percentage_to_str },
    { function_id := 0x01, name := some "valve/1",
      input_conversion := input_not_accepted,
      output_conversion := pureConv fht_percentage_to_str },
    { function_id := 0x02, name := some "valve/2",
      input_conversion := input_not_accepted,
      output_conversion := pureConv fht_percentage_to_str },
    { function_id := 0x03, name := some "valve/3",
      input_conversion := input_not_accepted,
      output_conversion := pureConv fht_percentage_to_str },
    { function_id := 0x04, name := some "valve/4",
      input_conversion := input_not_accepted,
      output_conversion := pureConv fht_percentage_to_str },
    { function_id := 0x05, name := some "valve/5",
      input_conversion := input_not_accepted,
      output_conversion := pureConv fht_percentage_to_str },
    { function_id := 0x06, name := some "valve/6",
      input_conversion := input_not_accepted,
      output_conversion := pureConv fht_percentage_to_str },
    { function_id := 0x07, name := some "valve/7",
      input_conversion := input_not_accepted,
      output_conversion := pureConv fht_percentage_to_str },
    { function_id := 0x08, name := some "valve/8",
      input_conversion := input_not_accepted,
      output_conversion := pureConv fht_percentage_to_str },
    { function_id := 0x3e, name := some "mode",
      input_conversion := payload_to_mode,
      output_conversion := pureConv mode_to_str },
    { function_id := 0x41, name := some "desired-temp",
      input_conversion := payload_to_fht_temp_of_str,
      output_conversion := pureConv fht_temp_to_str },
    { function_id := 0x42,
      input_conversion := input_not_accepted,
      output_conversion := fun _temp_low message raw => fht_is_temp_low message raw },
    { function_id := 0x43, name := some "is-temp",
      input_conversion := input_not_accepted,
      output_conversion := fun temp_low message raw =>
        (temp_low, fht_is_temp_high_to_str temp_low message raw) },
    { function_id := 0x44, name := some "status",
      input_conversion := input_not_accepted,
      output_conversion := pureConv fht_status_to_str },
    { function_id := 0x45, name := some "manu-temp",
      input_conversion := payload_to_fht_temp_of_str,
      output_conversion := pureConv fht_temp_to_str },
    { function_id := 0x4b,
      input_conversion := input_not_accepted,
      output_conversion := pureConv fht_ignore },
    { function_id := 0x60, name := some "year",
      input_conversion := payload_to_fht_year,
      output_conversion := pureConv fht_year_to_str },
    { function_id := 0x61, name := some "month",
      input_conversion := payload_to_fht_month,
      output_conversion := pureConv fht_month_to_str },
    { function_id := 0x62, name := some "day",
      input_conversion := payload_to_fht_day,
      output_conversion := pureConv fht_day_to_str },
    { function_id := 0x63, name := some "hour",
      input_conversion := payload_to_fht_hour,
      output_conversion := pureConv fht_hour_to_str },
    { function_id := 0x64, name := some "minute",
      input_conversion := payload_to_fht_minute,
      output_conversion := pureConv fht_minute_to_str },
    { function_id := 0x69,
      input_conversion := input_not_accepted,
      output_conversion := pureConv fht_ignore },
    { function_id := 0x7d,
      input_conversion := input_not_accepted,
      output_conversion := pureConv fht_ignore },
    { function_id := 0x7e,
      input_conversion := input_not_accepted,
      output_conversion := pureConv fht_ignore },
    { function_id := 0x82, name := some "day-temp",
      input_conversion := payload_to_fht_temp_of_str,
      output_conversion := pureConv fht_temp_to_str },
    { function_id := 0x84, name := some "night-temp",
      input_conversion := payload_to_fht_temp_of_str,
      output_conversion := pureConv fht_temp_to_str },
    { function_id := 0x8a, name := some "window-open-temp",
      input_conversion := payload_to_fht_temp_of_str,
      output_conversion := pureConv fht_temp_to_str } ]

def magic_ack : List Nat := [0x83, 0x09, 0x83, 0x01]
def magic_status : List Nat := [0x09, 0x09, 0xa0, 0x01]

/-- The name lookup `fht_set` performs over the table:
`fht_command->name && !strcmp(fht_command->name, command)`. -/
def fht_lookup_by_name (command : String) : Option FhtCommand :=
  fht_commands.find? fun c => c.name == some command

/-- `fht_decode` (src/fht.c:491).  Takes and returns the `temp_low` latch
(the global the conversions may touch); the `Int` is the C return value,
the message the decoded sink. -/
def fht_decode (temp_low : Nat) (p : Payload) : Nat × Int × FhtMessage :=
  let message : FhtMessage := {}
  if p.len < 9 then (temp_low, -EINVAL, message)
  else
    let raw? : Option (FhtType × FhtMessageRaw) :=
      if p.data.take 4 = magic_ack then
        some (.ACK, { cmd := p.data.getD 6 0, subfun := 0, status := 0,
                      value := p.data.getD 7 0 })
      else if p.data.take 4 = magic_status then
        if p.len ≠ 10 then none
        else some (.STATUS, { cmd := p.data.getD 6 0, subfun := p.data.getD 7 0,
                              status := p.data.getD 8 0, value := p.data.getD 9 0 })
      else none
    match raw? with
    | none => (temp_low, -EINVAL, message)
    | some (ty, raw) =>
      let message := { message with
        msg_type := ty,
        hauscode := (p.data.getD 4 0, p.data.getD 5 0) }
      match fht_commands.find? (fun c => c.function_id == raw.cmd) with
      | none => (temp_low, -EINVAL, message)
      | some c =>
        let message :=
          match c.name with
          | some n => { message with report0 := { message.report0 with topic := n } }
          | none => message
        c.output_conversion temp_low message raw

/-- `fht_send` (src/fht.c:533): assemble the outbound frame (the actual
write to the transport is external I/O and not modelled). -/
def fht_send (hauscode : Nat × Nat) (memory value : Nat) : Payload :=
  { tt := 0x04, len := 7,
    data := [0x02, 0x01, 0x83, hauscode.1, hauscode.2, memory, value] }

/-- `fht_set` (src/fht.c:546): look the command up by name, run its input
conversion, and on success send the converted byte (`fht_val` is the
`unsigned char` truncation of the conversion's non-negative result). -/
def fht_set (hauscode : Nat × Nat) (command payload : String) :
    Except Int Payload :=
  match fht_lookup_by_name command with
  | none => Except.error (-EINVAL)
  | some fht_command =>
    let err := fht_command.input_conversion payload
    if err < 0 then Except.error err
    else Except.ok (fht_send hauscode fht_command.function_id (err.toNat % 256))

/-! ## Helper lemmas -/

/-- Evaluation rule for `fmtFixed1`: once the rounded-tenths value is
pinned down by rational bounds, the formatted string is a computation. -/
theorem fmtFixed1_eq (q : ℚ) (n : ℕ) (h1 : (n : ℚ) ≤ q * 10 + 1/2)
    (h2 : q * 10 + 1/2 < n + 1) :
    fmtFixed1 q = toString (n / 10) ++ "." ++ toString (n % 10) := by
  unfold fmtFixed1
  have h : ⌊q * 10 + 1/2⌋ = (n : ℤ) := by
    rw [Int.floor_eq_iff]
    push_cast
    exact ⟨h1, h2⟩
  rw [h, Int.toNat_natCast]

/-- Evaluation rule for `fmtFixed2`, analogously. -/
theorem fmtFixed2_eq (q : ℚ) (n : ℕ) (h1 : (n : ℚ) ≤ q * 100 + 1/2)
    (h2 : q * 100 + 1/2 < n + 1) :
    fmtFixed2 q = toString (n / 100) ++ "." ++ (if n % 100 < 10 then "0" else "")
      ++ toString (n % 100) := by
  unfold fmtFixed2
  have h : ⌊q * 100 + 1/2⌋ = (n : ℤ) := by
    rw [Int.floor_eq_iff]
    push_cast
    exact ⟨h1, h2⟩
  rw [h, Int.toNat_natCast]

theorem fmt_pct_zero : fmtFixed1 (fht_pct 0) = "0.0" := by
  rw [fmtFixed1_eq _ 0 (by norm_num [fht_pct]) (by norm_num [fht_pct])]; rfl

theorem fmt_pct_full : fmtFixed1 (fht_pct 255) = "100.0" := by
  rw [fmtFixed1_eq _ 1000 (by norm_num [fht_pct]) (by norm_num [fht_pct])]; rfl

theorem fht_pct_mono {v v' : Nat} (h : v ≤ v') : fht_pct v ≤ fht_pct v' := by
  unfold fht_pct
  have h' : (v : ℚ) ≤ (v' : ℚ) := Nat.cast_le.mpr h
  gcongr

/-! ## Claim theorems -/

/-- C1: for a percentage-class decode whose status byte has low nibble 0xA
(lime-protection), a high nibble of 0xA or 0xB makes the decode succeed
with a percentage report computed from the value byte, while a high nibble
of 0x2 or 0x3 makes it return -EINVAL with the message untouched (no
report emitted). -/
theorem percentage_lime_protection (msg : FhtMessage) (cmd subfun status v : Nat)
    (hr : status % 16 = 0xa) :
    ((status / 16 % 16 = 0xa ∨ status / 16 % 16 = 0xb) →
       fht_percentage_to_str msg ⟨cmd, subfun, status, v⟩ =
         (0, { msg with report0 := { msg.report0 with value := fmtFixed1 (fht_pct v) } })) ∧
    ((status / 16 % 16 = 0x2 ∨ status / 16 % 16 = 0x3) →
       fht_percentage_to_str msg ⟨cmd, subfun, status, v⟩ = (-EINVAL, msg)) := by
  constructor
  · rintro (h | h) <;> simp [fht_percentage_to_str, hr, h]
  · rintro (h | h) <;> simp [fht_percentage_to_str, hr, h]

/-- Witness for C1 at status bytes 0xAA (succeeds) and 0x2A (fails). -/
theorem percentage_lime_protection_witness :
    ((0xAA : Nat) % 16 = 0xa) ∧ ((0xAA : Nat) / 16 % 16 = 0xa ∨ (0xAA : Nat) / 16 % 16 = 0xb) ∧
    fht_percentage_to_str {} ⟨0, 0, 0xAA, 100⟩ =
      (0, { ({} : FhtMessage) with report0 :=
              { ({} : FhtMessage).report0 with value := fmtFixed1 (fht_pct 100) } }) ∧
    ((0x2A : Nat) % 16 = 0xa) ∧ ((0x2A : Nat) / 16 % 16 = 0x2 ∨ (0x2A : Nat) / 16 % 16 = 0x3) ∧
    fht_percentage_to_str {} ⟨0, 0, 0x2A, 100⟩ = (-EINVAL, {}) :=
  ⟨by decide, by decide,
   (percentage_lime_protection {} 0 0 0xAA 100 (by decide)).1 (by decide),
   by decide, by decide,
   (percentage_lime_protection {} 0 0 0x2A 100 (by decide)).2 (by decide)⟩

/-- C2: for status-byte low nibble 0x0/0x6 the percentage report of value
byte 0 is "0.0" and of value byte 255 is "100.0", and the decoded
percentage is monotonic in the value byte; low nibble 0x1 always yields
"100.0" and low nibble 0x2 always yields "0.0". -/
theorem percentage_bounds_monotone (msg : FhtMessage) (cmd subfun status : Nat) :
    ((status % 16 = 0x0 ∨ status % 16 = 0x6) →
       (fht_percentage_to_str msg ⟨cmd, subfun, status, 0⟩).2.report0.value = "0.0" ∧
       (fht_percentage_to_str msg ⟨cmd, subfun, status, 255⟩).2.report0.value = "100.0" ∧
       ∀ v v' : Nat, v ≤ v' → fht_pct v ≤ fht_pct v') ∧
    (status % 16 = 0x1 →
       ∀ v, (fht_percentage_to_str msg ⟨cmd, subfun, status, v⟩).2.report0.value = "100.0") ∧
    (status % 16 = 0x2 →
       ∀ v, (fht_percentage_to_str msg ⟨cmd, subfun, status, v⟩).2.report0.value = "0.0") := by
  refine ⟨?_, ?_, ?_⟩
  · rintro (h | h) <;>
      exact ⟨by simp [fht_percentage_to_str, h, fmt_pct_zero],
             by simp [fht_percentage_to_str, h, fmt_pct_full],
             fun v v' hvv => fht_pct_mono hvv⟩
  · intro h v
    simp [fht_percentage_to_str, h, fmt_pct_full]
  · intro h v
    simp [fht_percentage_to_str, h, fmt_pct_zero]

/-- Witness for C2 at status bytes 0x50, 0x31 and 0x02. -/
theorem percentage_bounds_monotone_witness :
    ((0x50 : Nat) % 16 = 0x0 ∨ (0x50 : Nat) % 16 = 0x6) ∧
    (fht_percentage_to_str {} ⟨0, 0, 0x50, 0⟩).2.report0.value = "0.0" ∧
    (fht_percentage_to_str {} ⟨0, 0, 0x50, 255⟩).2.report0.value = "100.0" ∧
    ((3 : Nat) ≤ 200 ∧ fht_pct 3 ≤ fht_pct 200) ∧
    ((0x31 : Nat) % 16 = 0x1 ∧
      (fht_percentage_to_str {} ⟨0, 0, 0x31, 77⟩).2.report0.value = "100.0") ∧
    ((0x02 : Nat) % 16 = 0x2 ∧
      (fht_percentage_to_str {} ⟨0, 0, 0x02, 77⟩).2.report0.value = "0.0") :=
  ⟨by decide,
   ((percentage_bounds_monotone {} 0 0 0x50).1 (by decide)).1,
   ((percentage_bounds_monotone {} 0 0 0x50).1 (by decide)).2.1,
   ⟨by decide, ((percentage_bounds_monotone {} 0 0 0x50).1 (by decide)).2.2 3 200 (by decide)⟩,
   ⟨by decide, (percentage_bounds_monotone {} 0 0 0x31).2.1 (by decide) 77⟩,
   ⟨by decide, (percentage_bounds_monotone {} 0 0 0x02).2.2 (by decide) 77⟩⟩

/-- C10: a sync-time decode (status low nibble 0xC) with value byte 0 or 1
computes (value/2) - 1 in signed int arithmetic, obtaining -1, and formats
it with %u, so the emitted "synctime" report value is "4294967295". -/
theorem synctime_underflow (msg : FhtMessage) (cmd subfun status v : Nat)
    (hr : status % 16 = 0xc) (hv : v = 0 ∨ v = 1) :
    fht_percentage_to_str msg ⟨cmd, subfun, status, v⟩ =
      (0, { msg with report0 := { topic := "synctime", value := "4294967295" } }) := by
  rcases hv with h | h <;> subst h <;> simp [fht_percentage_to_str, hr] <;> rfl

/-- Witness for C10 at status byte 0x5C and value byte 0. -/
theorem synctime_underflow_witness :
    ((0x5C : Nat) % 16 = 0xc) ∧ ((0 : Nat) = 0 ∨ (0 : Nat) = 1) ∧
    fht_percentage_to_str {} ⟨3, 0, 0x5C, 0⟩ =
      (0, { ({} : FhtMessage) with report0 := { topic := "synctime", value := "4294967295" } }) :=
  ⟨by decide, Or.inl rfl, synctime_underflow {} 3 0 0x5C 0 (by decide) (Or.inl rfl)⟩

/-- The concrete high-temperature combination 0x64/0x01 formats as "35.60"
(since (0x64 + 1*256)/10 = 35.6, printed with two fractional digits). -/
theorem fmt_35_60 :
    fmtFixed2 ((((0x64 : Nat) : ℚ) + ((0x01 : Nat) : ℚ) * 256) / 10) = "35.60" := by
  rw [fmtFixed2_eq _ 3560 (by push_cast; norm_num) (by push_cast; norm_num)]
  rfl

/-- C3 counterexample: latching low byte 0x64 and then decoding high byte
0x01 succeeds, but the report value is "35.60", not "36.0" as claimed
((0x64 + 1*256)/10 = 35.6, and the format carries two fractional digits). -/
theorem temp_high_latch_counterexample :
    (fht_is_temp_low {} ⟨0x42, 0, 0, 0x64⟩).1 = 0x64 ∧
    (fht_is_temp_low {} ⟨0x42, 0, 0, 0x64⟩).2.1 = -EAGAIN ∧
    (fht_is_temp_high_to_str (fht_is_temp_low {} ⟨0x42, 0, 0, 0x64⟩).1 {}
        ⟨0x43, 0, 0, 0x01⟩).1 = 0 ∧
    (fht_is_temp_high_to_str (fht_is_temp_low {} ⟨0x42, 0, 0, 0x64⟩).1 {}
        ⟨0x43, 0, 0, 0x01⟩).2.report0.value = "35.60" ∧
    (fht_is_temp_high_to_str (fht_is_temp_low {} ⟨0x42, 0, 0, 0x64⟩).1 {}
        ⟨0x43, 0, 0, 0x01⟩).2.report0.value ≠ "36.0" := by
  refine ⟨rfl, rfl, rfl, fmt_35_60, ?_⟩
  show fmtFixed2 ((((0x64 : Nat) : ℚ) + ((0x01 : Nat) : ℚ) * 256) / 10) ≠ "36.0"
  rw [fmt_35_60]
  decide

/-- C3 (amended): the low-temperature decode latches its value byte and
signals -EAGAIN; the high-temperature decode then succeeds and reports
(latched_low + value*256)/10 with two fractional digits; for latched
0x64 and value 0x01 this is "35.60". -/
theorem temp_high_latch_spec (m m' : FhtMessage) (cmd sub st cmd' sub' st' a v : Nat) :
    fht_is_temp_low m ⟨cmd, sub, st, a⟩ = (a, -EAGAIN, m) ∧
    fht_is_temp_high_to_str (fht_is_temp_low m ⟨cmd, sub, st, a⟩).1 m'
        ⟨cmd', sub', st', v⟩ =
      (0, { m' with report0 := { m'.report0 with
              value := fmtFixed2 (((a : ℚ) + (v : ℚ) * 256) / 10) } }) ∧
    (fht_is_temp_high_to_str (fht_is_temp_low m ⟨cmd, sub, st, 0x64⟩).1 m'
        ⟨cmd', sub', st', 0x01⟩).2.report0.value = "35.60" :=
  ⟨rfl, rfl, fmt_35_60⟩

/-- C4 counterexample: the status decoder reads the VALUE byte, not the
status byte.  With status byte 0x21 (bits 5 and 0 set) and value byte 0 it
reports window "close" and battery "ok" (the claim would predict "open" /
"empty"); conversely with status byte 0 and value byte 0x21 it reports
"open" / "empty". -/
theorem status_reads_value_byte_counterexample :
    fht_status_to_str {} ⟨0x44, 0, 0x21, 0⟩ =
      (0, { msg_type := FhtType.ACK, hauscode := (0, 0),
            report0 := { topic := "window", value := "close" },
            report1 := { topic := "battery", value := "ok" } }) ∧
    fht_status_to_str {} ⟨0x44, 0, 0, 0x21⟩ =
      (0, { msg_type := FhtType.ACK, hauscode := (0, 0),
            report0 := { topic := "window", value := "open" },
            report1 := { topic := "battery", value := "empty" } }) := by
  constructor <;> rfl

/-- C4 (amended): the status-function decode always succeeds and always
emits exactly the two reports window/battery, with bit 5 of the VALUE
byte selecting "open"/"close" and bit 0 of the VALUE byte selecting
"empty"/"ok". -/
theorem status_decode_spec (msg : FhtMessage) (raw : FhtMessageRaw) :
    fht_status_to_str msg raw =
      (0, { msg with
            report0 := { topic := "window",
                         value := if raw.value.testBit 5 then "open" else "close" },
            report1 := { topic := "battery",
                         value := if raw.value.testBit 0 then "empty" else "ok" } }) := by
  have hb : ∀ (n i : Nat), (n &&& (1 <<< i) ≠ 0) ↔ n.testBit i = true := by
    intro n i
    rw [Nat.one_shiftLeft, Nat.and_two_pow]
    cases h : n.testBit i
    · simp
    · simp [(pow_pos (by norm_num : (0 : ℕ) < 2) i).ne']
  unfold fht_status_to_str
  simp only [hb]

/-- C5: the mode input conversion as written.  "auto" and "manual" map
(case-insensitively) to 0 and 1, but "holiday" is REJECTED with -EINVAL:
lines 128-131 of src/fht.c compare the payload against s_mode_manual
twice, so the branch returning FHT_MODE_HOLI = 2 is dead code (the code
contradicts its own s_mode_holiday constant and the mode decoder, which
does map value 2 to "holiday"). -/
theorem payload_to_mode_holiday_dead :
    payload_to_mode "auto" = 0 ∧ payload_to_mode "AuTo" = 0 ∧
    payload_to_mode "manual" = 1 ∧ payload_to_mode "MANUAL" = 1 ∧
    payload_to_mode "holiday" = -EINVAL ∧ payload_to_mode "HOLIDAY" = -EINVAL ∧
    (∀ s : String, payload_to_mode s ≠ 2) := by
  refine ⟨by decide, by decide, by decide, by decide, by decide, by decide, ?_⟩
  intro s
  unfold payload_to_mode
  by_cases h1 : strcaseeq s s_mode_auto = true
  · simp [h1]
  · by_cases h2 : strcaseeq s s_mode_manual = true <;> simp [h1, h2, EINVAL]

/-- C8: the mode decode maps value 0/1/2 to "auto"/"manual"/"holiday" with
success; any other value returns -EINVAL to the caller but still writes
the report value "unknown". -/
theorem mode_decode_spec (msg : FhtMessage) (cmd subfun status v : Nat) :
    (v = 0 → mode_to_str msg ⟨cmd, subfun, status, v⟩ =
       (0, { msg with report0 := { msg.report0 with value := "auto" } })) ∧
    (v = 1 → mode_to_str msg ⟨cmd, subfun, status, v⟩ =
       (0, { msg with report0 := { msg.report0 with value := "manual" } })) ∧
    (v = 2 → mode_to_str msg ⟨cmd, subfun, status, v⟩ =
       (0, { msg with report0 := { msg.report0 with value := "holiday" } })) ∧
    (v ≠ 0 → v ≠ 1 → v ≠ 2 →
       mode_to_str msg ⟨cmd, subfun, status, v⟩ =
         (-EINVAL, { msg with report0 := { msg.report0 with value := "unknown" } })) := by
  refine ⟨?_, ?_, ?_, ?_⟩
  · intro h; subst h; rfl
  · intro h; subst h; rfl
  · intro h; subst h; rfl
  · intro h0 h1 h2
    simp [mode_to_str, h0, h1, h2]

/-- Witness for C8 at value bytes 9 and 0. -/
theorem mode_decode_spec_witness :
    ((9 : Nat) ≠ 0) ∧ ((9 : Nat) ≠ 1) ∧ ((9 : Nat) ≠ 2) ∧
    mode_to_str {} ⟨0x3e, 0, 0, 9⟩ =
      (-EINVAL, { ({} : FhtMessage) with report0 :=
                    { ({} : FhtMessage).report0 with value := "unknown" } }) ∧
    mode_to_str {} ⟨0x3e, 0, 0, 0⟩ =
      (0, { ({} : FhtMessage) with report0 :=
              { ({} : FhtMessage).report0 with value := "auto" } }) :=
  ⟨by decide, by decide, by decide,
   (mode_decode_spec {} 0x3e 0 0 9).2.2.2 (by decide) (by decide) (by decide),
   (mode_decode_spec {} 0x3e 0 0 0).1 rfl⟩

/-- C6: frame-shape validation of `fht_decode`: declared length < 9 fails;
a STATUS-magic frame whose length is not exactly 10 fails; a frame whose
first four bytes match neither magic fails. -/
theorem fht_decode_frame_validation (tl : Nat) (p : Payload) :
    (p.len < 9 → (fht_decode tl p).2.1 = -EINVAL) ∧
    (p.data.take 4 = magic_status → p.len ≠ 10 → (fht_decode tl p).2.1 = -EINVAL) ∧
    (p.data.take 4 ≠ magic_ack → p.data.take 4 ≠ magic_status →
       (fht_decode tl p).2.1 = -EINVAL) := by
  refine ⟨fun h => ?_, fun hm hn => ?_, fun ha hs => ?_⟩
  · simp [fht_decode, h]
  · by_cases hlen : p.len < 9
    · simp [fht_decode, hlen]
    · have ha : ¬ p.data.take 4 = magic_ack := by
        rw [hm]; decide
      simp [fht_decode, hlen, hm, hn, ha,
            show magic_status ≠ magic_ack from by decide]
  · by_cases hlen : p.len < 9
    · simp [fht_decode, hlen]
    · simp [fht_decode, hlen, ha, hs]

/-- Witness for C6: a short frame, a STATUS frame of length 9, and a
frame with an unknown magic. -/
theorem fht_decode_frame_validation_witness :
    ((5 : Nat) < 9 ∧ (fht_decode 0 { len := 5, data := [] }).2.1 = -EINVAL) ∧
    (([0x09, 0x09, 0xa0, 0x01, 1, 2, 0x44, 0, 0] : List Nat).take 4 = magic_status ∧
       (9 : Nat) ≠ 10 ∧
       (fht_decode 0
          { len := 9, data := [0x09, 0x09, 0xa0, 0x01, 1, 2, 0x44, 0, 0] }).2.1 = -EINVAL) ∧
    (([1, 2, 3, 4, 1, 2, 0x44, 0, 0, 0] : List Nat).take 4 ≠ magic_ack ∧
       ([1, 2, 3, 4, 1, 2, 0x44, 0, 0, 0] : List Nat).take 4 ≠ magic_status ∧
       (fht_decode 0
          { len := 10, data := [1, 2, 3, 4, 1, 2, 0x44, 0, 0, 0] }).2.1 = -EINVAL) :=
  ⟨⟨by decide, (fht_decode_frame_validation 0 _).1 (by decide)⟩,
   ⟨by decide, by decide, (fht_decode_frame_validation 0 _).2.1 (by decide) (by decide)⟩,
   ⟨by decide, by decide, (fht_decode_frame_validation 0 _).2.2 (by decide) (by decide)⟩⟩

/-- C9: a write to any of the read-only named entries always fails with
-EPERM, whatever the payload, and the name lookup can only ever return an
entry bearing exactly the requested name (nameless entries are
unreachable). -/
theorem fht_set_read_only :
    (∀ name : String,
       name ∈ (["is-valve", "valve/1", "valve/2", "valve/3", "valve/4", "valve/5",
                "valve/6", "valve/7", "valve/8", "status", "is-temp"] : List String) →
       ∀ (hc : Nat × Nat) (payload : String),
         fht_set hc name payload = Except.error (-EPERM)) ∧
    (∀ (s : String) (c : FhtCommand), fht_lookup_by_name s = some c → c.name = some s) := by
  constructor
  · intro name hmem hc payload
    fin_cases hmem <;> rfl
  · intro s c h
    unfold fht_lookup_by_name at h
    have hp := List.find?_some h
    exact eq_of_beq hp

/-- Witness for C9 at entry "is-valve". -/
theorem fht_set_read_only_witness :
    ("is-valve" ∈ (["is-valve", "valve/1", "valve/2", "valve/3", "valve/4", "valve/5",
                    "valve/6", "valve/7", "valve/8", "status", "is-temp"] : List String)) ∧
    fht_set (13, 24) "is-valve" "50" = Except.error (-EPERM) :=
  ⟨by decide, fht_set_read_only.1 "is-valve" (by decide) (13, 24) "50"⟩

/-- Dividing a rational by the literal 0.5 doubles it (the exact content
of the C expression `temp/0.5`). -/
theorem div_half (q : ℚ) : q / (0.5 : ℚ) = q * 2 := by
  rw [show (0.5 : ℚ) = (2 : ℚ)⁻¹ by norm_num, div_eq_mul_inv, inv_inv]

/-- Evaluation rule for `fht_temp_encode` once `temp/0.5` is pinned to an
in-range integer. -/
theorem fht_temp_encode_eval (q : ℚ) (n : ℤ) (h : q / (0.5 : ℚ) = (n : ℚ))
    (h0 : 0 ≤ n) (hn : n < 256) :
    fht_temp_encode q = n := by
  unfold fht_temp_encode
  rw [h, Int.floor_intCast]
  exact Int.emod_eq_of_lt h0 hn

theorem classify_21_5 : classifyTempInput "21.5" = TempInput.num ((43 : ℚ) / 2) := by
  have h1 : strcaseeq "21.5" "off" = false := by decide
  have h2 : strcaseeq "21.5" "on" = false := by decide
  have h3 : parseDec "21.5" = some ((digitsToNat ['2', '1'] : ℚ)
      + (digitsToNat ['5'] : ℚ) / 10 ^ (['5'] : List Char).length) := rfl
  simp only [classifyTempInput, h1, h2, h3, Bool.false_eq_true, if_false]
  norm_num [show digitsToNat ['2', '1'] = 21 from by decide,
            show digitsToNat ['5'] = 5 from by decide,
            show (['5'] : List Char).length = 1 from rfl]

theorem classify_21_3 : classifyTempInput "21.3" = TempInput.num ((213 : ℚ) / 10) := by
  have h1 : strcaseeq "21.3" "off" = false := by decide
  have h2 : strcaseeq "21.3" "on" = false := by decide
  have h3 : parseDec "21.3" = some ((digitsToNat ['2', '1'] : ℚ)
      + (digitsToNat ['3'] : ℚ) / 10 ^ (['3'] : List Char).length) := rfl
  simp only [classifyTempInput, h1, h2, h3, Bool.false_eq_true, if_false]
  norm_num [show digitsToNat ['2', '1'] = 21 from by decide,
            show digitsToNat ['3'] = 3 from by decide,
            show (['3'] : List Char).length = 1 from rfl]

/-- C7 counterexample: the payload "21.3" is accepted by the temperature
conversion (it lies inside [5.5, 30.5]) and encodes (by the code's
truncation) to byte 42, which decodes to 21.0 ≠ 21.3; even the claim's
`round(21.3/0.5)` = 43 would decode to 21.5 ≠ 21.3, so "decode(encode(p))
round-trips for every accepted payload" is false at "21.3". -/
theorem temp_roundtrip_counterexample :
    classifyTempInput "21.3" = TempInput.num ((213 : ℚ) / 10) ∧
    payload_to_fht_temp (.num ((213 : ℚ) / 10)) = 42 ∧
    fht_temp_decode_val 42 ≠ ((213 : ℚ) / 10) ∧
    fht_temp_decode_val 43 ≠ ((213 : ℚ) / 10) := by
  refine ⟨classify_21_3, ?_, ?_, ?_⟩
  · show payload_to_fht_temp (.num ((213 : ℚ) / 10)) = 42
    simp only [payload_to_fht_temp]
    rw [if_neg (by norm_num)]
    have hfl : ⌊((213 : ℚ) / 10) / (0.5 : ℚ)⌋ = 42 := by
      rw [div_half, Int.floor_eq_iff]
      norm_num
    unfold fht_temp_encode
    rw [hfl]
    decide
  · unfold fht_temp_decode_val
    norm_num
  · unfold fht_temp_decode_val
    norm_num

/-- C7 (amended): the encode truncates `temp/0.5` (rather than rounding),
so the round-trip holds exactly on the representable grid: for every
accepted payload that is an integer multiple of 0.5 (including the "off"
and "on" literals), decode(encode(payload)) is the same semantic
temperature; "21.5" encodes to byte 43 and decodes back to "21.5"; and
every number outside [5.5, 30.5] is rejected with -ERANGE. -/
theorem temp_roundtrip_spec :
    (∀ q : ℚ, (∃ k : ℤ, q = (k : ℚ) / 2) → (5.5 : ℚ) ≤ q → q ≤ (30.5 : ℚ) →
       0 ≤ payload_to_fht_temp (.num q) ∧
       fht_temp_decode_val (payload_to_fht_temp (.num q)).toNat = q) ∧
    (fht_temp_decode_val (payload_to_fht_temp .off).toNat = (5.5 : ℚ) ∧
     fht_temp_decode_val (payload_to_fht_temp .on).toNat = (30.5 : ℚ)) ∧
    (classifyTempInput "21.5" = TempInput.num ((43 : ℚ) / 2) ∧
     payload_to_fht_temp (.num ((43 : ℚ) / 2)) = 43 ∧
     (fht_temp_to_str {} ⟨0x41, 0, 0, 43⟩).2.report0.value = "21.5") ∧
    (∀ q : ℚ, (q < (5.5 : ℚ) ∨ q > (30.5 : ℚ)) →
       payload_to_fht_temp (.num q) = -ERANGE) := by
  have hgrid : ∀ k : ℤ, (5.5 : ℚ) ≤ (k : ℚ) / 2 → ((k : ℚ) / 2) ≤ (30.5 : ℚ) →
      payload_to_fht_temp (.num ((k : ℚ) / 2)) = k := by
    intro k h1 h2
    have hk1 : (11 : ℤ) ≤ k := by
      have : (11 : ℚ) ≤ (k : ℚ) := by linarith
      exact_mod_cast this
    have hk2 : k ≤ 61 := by
      have : (k : ℚ) ≤ (61 : ℚ) := by linarith
      exact_mod_cast this
    simp only [payload_to_fht_temp]
    rw [if_neg (by push_neg; exact ⟨h1, h2⟩)]
    refine fht_temp_encode_eval _ k ?_ (by omega) (by omega)
    rw [div_half, div_mul_cancel₀ _ (by norm_num : (2 : ℚ) ≠ 0)]
  refine ⟨?_, ⟨?_, ?_⟩, ⟨classify_21_5, ?_, ?_⟩, ?_⟩
  · rintro q ⟨k, rfl⟩ h1 h2
    have henc := hgrid k h1 h2
    have hk1 : (11 : ℤ) ≤ k := by
      have : (11 : ℚ) ≤ (k : ℚ) := by linarith
      exact_mod_cast this
    refine ⟨by rw [henc]; omega, ?_⟩
    rw [henc]
    unfold fht_temp_decode_val
    rw [show ((k.toNat : ℕ) : ℚ) = (k : ℚ) by
          rw [show (k.toNat : ℚ) = ((k.toNat : ℤ) : ℚ) by push_cast; ring,
              Int.toNat_of_nonneg (by omega)]]
    rw [show (0.5 : ℚ) = 1 / 2 by norm_num]
    ring
  · have henc : payload_to_fht_temp .off = 11 := by
      unfold payload_to_fht_temp
      exact fht_temp_encode_eval _ 11 (by rw [div_half]; norm_num) (by omega) (by omega)
    rw [henc]
    unfold fht_temp_decode_val
    rw [show Int.toNat 11 = 11 from rfl]
    norm_num
  · have henc : payload_to_fht_temp .on = 61 := by
      unfold payload_to_fht_temp
      exact fht_temp_encode_eval _ 61 (by rw [div_half]; norm_num) (by omega) (by omega)
    rw [henc]
    unfold fht_temp_decode_val
    rw [show Int.toNat 61 = 61 from rfl]
    norm_num
  · have h43 := hgrid 43 (by norm_num) (by norm_num)
    simpa using h43
  · show fmtFixed1 (fht_temp_decode_val 43) = "21.5"
    rw [show fht_temp_decode_val 43 = (43 : ℚ) / 2 by unfold fht_temp_decode_val; norm_num]
    rw [fmtFixed1_eq _ 215 (by norm_num) (by norm_num)]
    rfl
  · intro q h
    simp only [payload_to_fht_temp]
    rw [if_pos h]

/-- Witness for C7 at the grid point 21.5 (= 43/2) and the out-of-range
payload 31. -/
theorem temp_roundtrip_spec_witness :
    (∃ k : ℤ, ((43 : ℚ) / 2) = (k : ℚ) / 2) ∧ (5.5 : ℚ) ≤ (43 : ℚ) / 2 ∧
    ((43 : ℚ) / 2) ≤ (30.5 : ℚ) ∧
    fht_temp_decode_val (payload_to_fht_temp (.num ((43 : ℚ) / 2))).toNat = (43 : ℚ) / 2 ∧
    ((31 : ℚ) < (5.5 : ℚ) ∨ (31 : ℚ) > (30.5 : ℚ)) ∧
    payload_to_fht_temp (.num (31 : ℚ)) = -ERANGE :=
  ⟨⟨43, rfl⟩, by norm_num, by norm_num,
   (temp_roundtrip_spec.1 ((43 : ℚ) / 2) ⟨43, rfl⟩ (by norm_num) (by norm_num)).2,
   by norm_num,
   temp_roundtrip_spec.2.2.2 31 (by norm_num)⟩
